import Mathlib

/-!
Verification of the github-repo-searcher core against its specification.

Rust strings are modelled as lists of characters (`Str`); `str::to_lowercase`
and `str::trim` are modelled per character via `Char.toLower` and
`Char.isWhitespace`; `str::contains` is modelled by `strContains`
(contiguous-substring containment).  Machine integers (`u64`) are modelled as
`Nat` with explicit reduction modulo `2 ^ 64` where overflow matters.
Filesystem, network and channel effects are modelled by explicit parameters
and returned message lists.
-/

/-- Rust `&str` / `String`, modelled as its character sequence. -/
abbrev Str := List Char

/-- Rust `str::to_lowercase`, modelled per character. -/
def lowerStr (s : Str) : Str := s.map Char.toLower

/-- Rust `str::trim`: drop whitespace from both ends. -/
def strTrim (s : Str) : Str :=
  ((s.dropWhile Char.isWhitespace).reverse.dropWhile Char.isWhitespace).reverse

/-- Rust `str::starts_with(needle)` restricted to list needles:
`strStartsWith s pre` is true iff `pre` is a prefix of `s`. -/
def strStartsWith : Str → Str → Bool
  | _, [] => true
  | [], _ :: _ => false
  | c :: cs, p :: ps => c == p && strStartsWith cs ps

/-- Rust `str::contains(needle)`: `needle` occurs as a contiguous substring. -/
def strContains : Str → Str → Bool
  | [], needle => needle.isEmpty
  | c :: cs, needle => strStartsWith (c :: cs) needle || strContains cs needle

/-- Rust `str::split(c)`: split at every occurrence of `c`, keeping empty
pieces (they are filtered away by the caller in `filter_human`). -/
def splitChar (c : Char) : Str → List Str
  | [] => [[]]
  | x :: xs =>
    if x == c then [] :: splitChar c xs
    else
      match splitChar c xs with
      | [] => [[x]]
      | p :: ps => (x :: p) :: ps

/-- `query_part.starts_with('-')` from `filter.rs`. -/
def startsWithDash (query_part : Str) : Bool :=
  match query_part with
  | '-' :: _ => true
  | _ => false

/-- The per-term check of the candidate loop in `filter.rs` lines 43-54:
a `-`-prefixed term of total length ≥ 2 must be absent from the mapped
item (after stripping the dash); every other term (a bare `-` included)
must be present literally. -/
def partPasses (mapped : Str) (query_part : Str) : Bool :=
  if decide (2 ≤ query_part.length) && startsWithDash query_part then
    !(strContains mapped (query_part.drop 1))
  else
    strContains mapped query_part

/-- `filter_human` from `filter.rs`.  The Rust code stably sorts the query
parts so that `-`-prefixed parts come first; a stable sort under that
two-valued comparator is exactly the stable partition written here.  The
`for` loop with an early `break` computes the conjunction `List.all`. -/
def filter_human {α : Type} (items : List α) (query : Str) (mapper : α → Str) : List α :=
  if items.isEmpty then
    []
  else
    let trimmed := strTrim query
    if trimmed.isEmpty then
      items
    else
      let query_parts := (splitChar ' ' (lowerStr trimmed)).filter (fun part => !part.isEmpty)
      let query_parts :=
        query_parts.filter startsWithDash ++
          query_parts.filter (fun part => !startsWithDash part)
      items.filter (fun item =>
        query_parts.all (fun query_part => partPasses (lowerStr (mapper item)) query_part))

/-- The non-empty terms of the trimmed, lower-cased query, split on ASCII
space — the `query_parts` of `filter.rs` before the exclusion-first sort. -/
def queryTerms (query : Str) : List Str :=
  (splitChar ' ' (lowerStr (strTrim query))).filter (fun part => !part.isEmpty)

/-- The spec's partition rule: a term is an exclusion term iff it is
`-`-prefixed and has total length ≥ 2 (at least one character after the
dash); a bare single `-` is not an exclusion term. -/
def isExclusionTerm (t : Str) : Bool := startsWithDash t && decide (2 ≤ t.length)

/-- The spec's acceptance predicate for one candidate, written from the
spec's words: the lower-cased projection contains all inclusion terms as
substrings and none of the exclusion terms (dash stripped) as substrings. -/
def specMatches (mappedLower : Str) (terms : List Str) : Bool :=
  (terms.filter (fun t => !isExclusionTerm t)).all (fun t => strContains mappedLower t) &&
    (terms.filter isExclusionTerm).all (fun t => !strContains mappedLower (t.drop 1))

example : filter_human ["apple pie".data, "banana split".data, "cherry pie".data]
    "pie a".data id = ["apple pie".data] := by decide

example : filter_human ["apple pie".data, "banana split".data, "cherry pie".data]
    "pie -cherry".data id = ["apple pie".data] := by decide

example : filter_human ["Apple".data] "apple".data id = ["Apple".data] := by decide

/-- Modelled from the spec: `RepoSource` is declared in `formatter.rs` (a part
of that module missing from the provided sources); the spec's data model gives
`source (enum {GitHub, GitLab})`. -/
inductive RepoSource where
  | GitHub
  | GitLab
deriving DecidableEq, Repr

/-- `RepoData` from `cache.rs`. -/
structure RepoData where
  name : String
  url : String
  description : String
  owner : String
  is_fork : Bool
  is_private : Bool
  source : RepoSource
deriving DecidableEq, Repr

/-- `u64` arithmetic is modulo `2 ^ 64`. -/
def U64_MOD : Nat := 2 ^ 64

/-- Rust release-mode `u64` subtraction: wraps modulo `2 ^ 64`. -/
def u64Sub (a b : Nat) : Nat := (a % U64_MOD + (U64_MOD - b % U64_MOD)) % U64_MOD

/-- The underflow condition of `u64` subtraction (panic in debug builds,
wrap-around in release builds). -/
def u64SubUnderflows (a b : Nat) : Bool := decide (a % U64_MOD < b % U64_MOD)

/-- `CACHE_EXPIRY` from `cache.rs`: 30 minutes, in seconds. -/
def CACHE_EXPIRY : Nat := 30 * 60

/-- `SourceCache` from `cache.rs`. -/
structure SourceCache where
  timestamp : Nat
  username : String
deriving DecidableEq, Repr

/-- `SourceCache::new` from `cache.rs`; the system-clock read is modelled by
the explicit parameter `now`. -/
def SourceCache.new (username : String) (now : Nat) : SourceCache :=
  { timestamp := now, username := username }

/-- `SourceCache::is_expired` from `cache.rs`: `now - self.timestamp >
CACHE_EXPIRY.as_secs()` with `u64` subtraction; the system-clock read is
modelled by the explicit parameter `now`. -/
def SourceCache.isExpired (c : SourceCache) (now : Nat) : Bool :=
  decide (CACHE_EXPIRY < u64Sub now c.timestamp)

/-- `SourceData` from `cache.rs`. -/
structure SourceData where
  cache_info : SourceCache
  repositories : List RepoData
deriving DecidableEq, Repr

/-- `CacheData` from `cache.rs`. -/
structure CacheData where
  github : Option SourceData
  gitlab : Option SourceData
deriving DecidableEq, Repr

/-- `CacheData::new` from `cache.rs`. -/
def CacheData.new : CacheData := { github := none, gitlab := none }

/-- `CacheData::is_expired` from `cache.rs`: any expired present source makes
the combined cache expired; with no expired source, it is expired iff both
sources are absent. -/
def CacheData.isExpired (c : CacheData) (now : Nat) : Bool :=
  if (match c.github with
      | some github => github.cache_info.isExpired now
      | none => false) then
    true
  else if (match c.gitlab with
      | some gitlab => gitlab.cache_info.isExpired now
      | none => false) then
    true
  else
    c.github.isNone && c.gitlab.isNone

/-- `CacheData::update_github` from `cache.rs`. -/
def CacheData.update_github (c : CacheData) (username : String)
    (repositories : List RepoData) (now : Nat) : CacheData :=
  { c with github := some { cache_info := SourceCache.new username now,
                            repositories := repositories } }

/-- `CacheData::update_gitlab` from `cache.rs`. -/
def CacheData.update_gitlab (c : CacheData) (username : String)
    (repositories : List RepoData) (now : Nat) : CacheData :=
  { c with gitlab := some { cache_info := SourceCache.new username now,
                            repositories := repositories } }

/-- `CacheData::get_all_repositories` from `cache.rs`. -/
def CacheData.get_all_repositories (c : CacheData) : List RepoData :=
  (match c.github with
    | some github => github.repositories
    | none => []) ++
    (match c.gitlab with
      | some gitlab => gitlab.repositories
      | none => [])

/-- `Repository` from `github.rs` / `gitlab.rs`:
`(name, ssh_url, description, owner, is_fork, is_private)`. -/
abbrev Repository := String × String × String × String × Bool × Bool

/-- `github_repo_to_repo_data` from `cache.rs`. -/
def github_repo_to_repo_data (repo : Repository) : RepoData :=
  let (name, url, description, owner, is_fork, is_private) := repo
  { name := name, url := url, description := description, owner := owner,
    is_fork := is_fork, is_private := is_private, source := RepoSource.GitHub }

/-- `gitlab_repo_to_repo_data` from `cache.rs`. -/
def gitlab_repo_to_repo_data (repo : Repository) : RepoData :=
  let (name, url, description, owner, is_fork, is_private) := repo
  { name := name, url := url, description := description, owner := owner,
    is_fork := is_fork, is_private := is_private, source := RepoSource.GitLab }

/-- `RepoUpdateMessage` from `repository.rs`. -/
inductive RepoUpdateMessage where
  | NewRepos (repos : List RepoData) (github_username : String) (gitlab_username : String)
  | LoadingComplete
  | Error (msg : String)
  | Status (msg : String)
deriving DecidableEq, Repr

/-- The body of `spawn_background_task` from `repository.rs` lines 154-266.
The effectful collaborators are explicit parameters: `github_fetch` /
`gitlab_fetch` model `github::fetch_repos` / `gitlab::fetch_repos` (the
result for the given token), `save_cache` models `cache::save_cache`, and
`gh_now` / `gl_now` model the clock reads of the two `SourceCache::new`
calls.  Channel sends are modelled by the returned message list, in send
order; the second component is the `cache_data` value passed to
`save_cache`. -/
def spawn_background_task
    (github_token gitlab_token : Option String)
    (github_fetch gitlab_fetch : String → Except String (String × List Repository))
    (save_cache : CacheData → Except String Unit)
    (gh_now gl_now : Nat) : List RepoUpdateMessage × CacheData :=
  let cache_data := CacheData.new
  let all_repos : List RepoData := []
  let gitlab_username := ""
  let githubStage :=
    match github_token with
    | none => ([], cache_data, all_repos, "")
    | some github_token =>
      match github_fetch github_token with
      | .ok (gh_username, gh_repos) =>
        let github_repo_data := gh_repos.map github_repo_to_repo_data
        let all_repos := all_repos ++ github_repo_data
        ([RepoUpdateMessage.Status "Fetching GitHub repositories...",
          RepoUpdateMessage.NewRepos all_repos gh_username gitlab_username,
          RepoUpdateMessage.Status
            ("Fetched " ++ toString gh_repos.length ++ " GitHub repositories")],
         cache_data.update_github gh_username github_repo_data gh_now,
         all_repos, gh_username)
      | .error e =>
        ([RepoUpdateMessage.Status "Fetching GitHub repositories...",
          RepoUpdateMessage.Error ("GitHub error: " ++ e)],
         cache_data, all_repos, "")
  let gitlabStage :=
    match gitlab_token with
    | none => ([], githubStage.2.1, githubStage.2.2.1, "")
    | some gitlab_token =>
      match gitlab_fetch gitlab_token with
      | .ok (gl_username, gl_repos) =>
        let gitlab_repo_data := gl_repos.map gitlab_repo_to_repo_data
        let all_repos := githubStage.2.2.1 ++ gitlab_repo_data
        ([RepoUpdateMessage.Status "Fetching GitLab repositories...",
          RepoUpdateMessage.NewRepos all_repos githubStage.2.2.2 gl_username,
          RepoUpdateMessage.Status
            ("Fetched " ++ toString gl_repos.length ++ " GitLab repositories")],
         githubStage.2.1.update_gitlab gl_username gitlab_repo_data gl_now,
         all_repos, gl_username)
      | .error e =>
        ([RepoUpdateMessage.Status "Fetching GitLab repositories...",
          RepoUpdateMessage.Error ("GitLab error: " ++ e)],
         githubStage.2.1, githubStage.2.2.1, "")
  let final_cache := gitlabStage.2.1
  let saveMsgs :=
    match save_cache final_cache with
    | .ok _ => [RepoUpdateMessage.Status "Cache updated successfully"]
    | .error e => [RepoUpdateMessage.Error ("Failed to save cache: " ++ e)]
  (githubStage.1 ++ gitlabStage.1 ++ saveMsgs ++ [RepoUpdateMessage.LoadingComplete],
   final_cache)

/-- The outcome of one source's fetch during a cycle: `some (username, repos)`
when a token is configured and the fetch succeeds, `none` otherwise. -/
def fetchOutcome (token : Option String)
    (fetch : String → Except String (String × List Repository)) :
    Option (String × List Repository) :=
  match token with
  | none => none
  | some t =>
    match fetch t with
    | .ok r => some r
    | .error _ => none

/-- The failure of one source's fetch during a cycle: `some cause` when a
token is configured and the fetch fails. -/
def fetchFailure (token : Option String)
    (fetch : String → Except String (String × List Repository)) :
    Option String :=
  match token with
  | none => none
  | some t =>
    match fetch t with
    | .ok _ => none
    | .error e => some e

/-- Recognizer for `NewRepos` messages. -/
def isNewReposMsg : RepoUpdateMessage → Bool
  | RepoUpdateMessage.NewRepos _ _ _ => true
  | _ => false

/-- Recognizer for `Error` messages. -/
def isErrorMsg : RepoUpdateMessage → Bool
  | RepoUpdateMessage.Error _ => true
  | _ => false

/-- Written from the spec's words for C2: the `NewRepos` messages one refresh
cycle must produce — one per successful source, each carrying the
merged-so-far corpus (accumulated, not replaced) plus the latest known
usernames (the GitLab username is still the initial empty string when the
GitHub source reports). -/
def c2ExpectedNewRepos (gh gl : Option (String × List Repository)) :
    List RepoUpdateMessage :=
  let ghRepos :=
    match gh with
    | some (_, repos) => repos.map github_repo_to_repo_data
    | none => []
  let ghUser :=
    match gh with
    | some (username, _) => username
    | none => ""
  (match gh with
    | some (username, repos) =>
      [RepoUpdateMessage.NewRepos (repos.map github_repo_to_repo_data) username ""]
    | none => []) ++
    (match gl with
      | some (username, repos) =>
        [RepoUpdateMessage.NewRepos (ghRepos ++ repos.map gitlab_repo_to_repo_data)
          ghUser username]
      | none => [])

/-- Written from the spec's words for C2: the `Error` messages one refresh
cycle must produce — one per failed source with a human-readable cause, plus
one for a failed cache write (non-fatal). -/
def c2ExpectedErrors (ghFailure glFailure saveFailure : Option String) :
    List RepoUpdateMessage :=
  (match ghFailure with
    | some e => [RepoUpdateMessage.Error ("GitHub error: " ++ e)]
    | none => []) ++
    (match glFailure with
      | some e => [RepoUpdateMessage.Error ("GitLab error: " ++ e)]
      | none => []) ++
    (match saveFailure with
      | some e => [RepoUpdateMessage.Error ("Failed to save cache: " ++ e)]
      | none => [])

/-- Written from the spec's words for C2: the combined cache snapshot built
only from the sources that succeeded in this cycle. -/
def c2ExpectedCache (gh gl : Option (String × List Repository))
    (gh_now gl_now : Nat) : CacheData :=
  { github := gh.map (fun r =>
      { cache_info := { timestamp := gh_now, username := r.1 },
        repositories := r.2.map github_repo_to_repo_data }),
    gitlab := gl.map (fun r =>
      { cache_info := { timestamp := gl_now, username := r.1 },
        repositories := r.2.map gitlab_repo_to_repo_data }) }

/-- The cache-hit decision of `load_repositories_with_background_refresh`
(`repository.rs` lines 100-135): the synchronous cache-serve happens iff
force-download is off, a cache file loads, and the loaded combined cache is
not expired.  The configured tokens are in the arguments (as in
`cli::AppArgs`) but the source never consults them for this decision. -/
def cacheServedAsHit (github_token gitlab_token : Option String)
    (force_download : Bool) (loaded : Option CacheData) (now : Nat) : Bool :=
  if force_download then false
  else
    match loaded with
    | some cache_data => !cache_data.isExpired now
    | none => false

/-- `FuzzyFinder` from `fuzzy_finder.rs` (state fields only; the terminal
screen is rendering I/O). -/
structure FuzzyFinder where
  items : List Str
  filtered_items : List Str
  query : Str
  cursor_pos : Nat
  selected_index : Nat
  max_display : Nat
  scroll_offset : Nat
deriving DecidableEq

/-- `FuzzyFinder::new` from `fuzzy_finder.rs`. -/
def FuzzyFinder.new (items : List Str) : FuzzyFinder :=
  { items := items, filtered_items := items, query := [], cursor_pos := 0,
    selected_index := 0, max_display := 10, scroll_offset := 0 }

/-- `FuzzyFinder::update_filter` from `fuzzy_finder.rs` lines 57-76 (the
`main.rs` lines 50-65 copy is textually the same logic): recompute the
filtered list, clamp the selection, then adjust the scroll offset. -/
def FuzzyFinder.update_filter (f : FuzzyFinder) : FuzzyFinder :=
  let filtered_items := filter_human f.items f.query id
  let selected_index :=
    if decide (filtered_items.length ≤ f.selected_index) then
      if filtered_items.isEmpty then 0 else filtered_items.length - 1
    else f.selected_index
  let scroll_offset :=
    if decide (selected_index < f.scroll_offset) then selected_index
    else if decide (f.scroll_offset + f.max_display ≤ selected_index) then
      selected_index - f.max_display + 1
    else f.scroll_offset
  { f with filtered_items := filtered_items, selected_index := selected_index,
           scroll_offset := scroll_offset }

/-- The observable state of the cache file for `load_cache`: absent,
present but unreadable (I/O error text), or readable with some content. -/
inductive FileState where
  | absent
  | unreadable (error : String)
  | content (text : String)
deriving DecidableEq

/-- `load_cache` from `cache.rs` lines 154-172.  The filesystem is modelled
by the explicit `file` state and `serde_json::from_str` by the explicit
`parse` parameter (it is an external crate).  The result pairs the returned
`Option<CacheData>` with the optional `eprintln!` warning text. -/
def loadCache (file : FileState) (parse : String → Except String CacheData) :
    Option CacheData × Option String :=
  match file with
  | FileState.absent => (none, none)
  | FileState.unreadable e => (none, some ("Error reading cache file: " ++ e))
  | FileState.content text =>
    match parse text with
    | .ok cache_data => (some cache_data, none)
    | .error e => (none, some ("Error parsing cache file: " ++ e))

/-- A stable partition feeds `List.all` the same elements, so the
exclusion-first reordering of the query parts does not change the
conjunction. -/
theorem all_filter_append (l : List Str) (p f : Str → Bool) :
    ((l.filter p) ++ l.filter (fun x => !p x)).all f = l.all f := by
  have hperm := List.filter_append_perm p l
  rw [Bool.eq_iff_iff]
  simp only [List.all_eq_true]
  constructor
  · intro h x hx
    exact h x (hperm.mem_iff.mpr hx)
  · intro h x hx
    exact h x (hperm.mem_iff.mp hx)

/-- The per-term check of `filter.rs` branches exactly on the spec's
exclusion-term test. -/
theorem partPasses_eq (mapped t : Str) :
    partPasses mapped t =
      if isExclusionTerm t then !(strContains mapped (t.drop 1))
      else strContains mapped t := by
  simp only [partPasses, isExclusionTerm, Bool.and_comm]

/-- Conjunction over all terms splits into the inclusion-term conjunction
and the exclusion-term conjunction. -/
theorem all_partPasses (mapped : Str) (l : List Str) :
    l.all (fun t => partPasses mapped t) = specMatches mapped l := by
  induction l with
  | nil => rfl
  | cons t ts ih =>
    simp only [partPasses_eq, List.drop_one] at ih
    cases ht : isExclusionTerm t <;>
      simp [List.all_cons, partPasses_eq, ht, ih, specMatches, List.filter_cons,
        Bool.and_assoc, Bool.and_left_comm, -List.all_filter, List.drop_one]

/-- Characterization of `filter_human`: an empty or whitespace-only query
returns the items unchanged, and otherwise the result is the stable filter
of the items by the spec's acceptance predicate over the query's terms. -/
theorem filter_human_eq {α : Type} (items : List α) (query : Str) (mapper : α → Str) :
    filter_human items query mapper =
      if (strTrim query).isEmpty then items
      else items.filter (fun item =>
        specMatches (lowerStr (mapper item)) (queryTerms query)) := by
  cases items with
  | nil =>
    simp [filter_human]
  | cons x xs =>
    simp only [filter_human, List.isEmpty_cons, Bool.false_eq_true, if_false]
    by_cases htrim : (strTrim query).isEmpty
    · simp [htrim]
    · simp only [htrim, if_false, Bool.false_eq_true]
      apply List.filter_congr
      intro a _
      rw [all_filter_append, all_partPasses]
      rfl

/-- Claim C1: for every item list, query string, and projection function,
`filter_human` returns exactly the sublist of items, in their original
relative order, whose lower-cased projection contains all of the query's
inclusion terms as substrings and none of its exclusion terms as substrings
(terms obtained by splitting the trimmed, lower-cased query on ASCII space,
discarding empty terms, the exclusion terms being the `-`-prefixed terms of
the partition rule); in particular an empty or whitespace-only query returns
the items unchanged and an empty item list returns an empty result. -/
theorem c1_filter_human_characterization {α : Type} (items : List α)
    (query : Str) (mapper : α → Str) :
    filter_human items query mapper =
      if (strTrim query).isEmpty then items
      else items.filter (fun item =>
        specMatches (lowerStr (mapper item)) (queryTerms query)) :=
  filter_human_eq items query mapper

/-- `dropWhile` is the identity when no element satisfies the predicate. -/
theorem dropWhile_eq_self_of_none (l : List Char) (p : Char → Bool)
    (h : ∀ c ∈ l, p c = false) : l.dropWhile p = l := by
  cases l with
  | nil => rfl
  | cons x xs => simp [List.dropWhile_cons, h x (by simp)]

/-- Trimming a string with no whitespace characters is the identity. -/
theorem strTrim_eq_self (s : Str) (h : ∀ c ∈ s, Char.isWhitespace c = false) :
    strTrim s = s := by
  unfold strTrim
  rw [dropWhile_eq_self_of_none s Char.isWhitespace h,
    dropWhile_eq_self_of_none s.reverse Char.isWhitespace
      (fun c hc => h c (List.mem_reverse.mp hc)),
    List.reverse_reverse]

/-- Lower-casing a string whose characters are fixed by `Char.toLower` is
the identity. -/
theorem lowerStr_eq_self (s : Str) (h : ∀ c ∈ s, Char.toLower c = c) :
    lowerStr s = s := by
  induction s with
  | nil => rfl
  | cons x xs ih =>
    simp only [lowerStr, List.map_cons, h x (by simp)]
    rw [show xs.map Char.toLower = xs from ih (fun c hc => h c (by simp [hc]))]

/-- Splitting a string that contains no separator yields that one piece. -/
theorem splitChar_eq_single (s : Str) (c : Char) (h : ∀ x ∈ s, (x == c) = false) :
    splitChar c s = [s] := by
  induction s with
  | nil => rfl
  | cons x xs ih =>
    rw [splitChar, ih (fun y hy => h y (by simp [hy]))]
    simp [h x (by simp)]

/-- A single non-empty whitespace-free lower-case-fixed term is the whole
term list of its own query. -/
theorem queryTerms_single (t : Str) (hne : t ≠ [])
    (hws : ∀ c ∈ t, Char.isWhitespace c = false)
    (hlow : ∀ c ∈ t, Char.toLower c = c) : queryTerms t = [t] := by
  have hsp : ∀ x ∈ t, (x == ' ') = false := by
    intro x hx
    cases hxc : (x == ' ') with
    | false => rfl
    | true =>
      have hxe : x = ' ' := beq_iff_eq.mp hxc
      have hw := hws x hx
      rw [hxe] at hw
      exact absurd hw (by decide)
  unfold queryTerms
  rw [strTrim_eq_self t hws, lowerStr_eq_self t hlow, splitChar_eq_single t ' ' hsp]
  cases t with
  | nil => exact absurd rfl hne
  | cons x xs => rfl

/-- Claim C6: a query term is treated as an exclusion term iff it is
`-`-prefixed and still has a character after stripping the prefix (total
length ≥ 2); a bare single `-` term is treated as a literal inclusion term
(the item must contain the substring `-`), not as an exclusion marker or a
no-op.  Stated over a whole single-term query fed to `filter_human` (the
hypotheses make the term survive trimming, lower-casing and splitting
unchanged). -/
theorem c6_exclusion_term_classification (t : Str) (items : List Str)
    (hne : t ≠ []) (hws : ∀ c ∈ t, Char.isWhitespace c = false)
    (hlow : ∀ c ∈ t, Char.toLower c = c) :
    filter_human items t id =
      items.filter (fun item =>
        if isExclusionTerm t then !(strContains (lowerStr item) (t.drop 1))
        else strContains (lowerStr item) t) := by
  have hemp : t.isEmpty = false := by
    cases t with
    | nil => exact absurd rfl hne
    | cons x xs => rfl
  rw [filter_human_eq, strTrim_eq_self t hws, queryTerms_single t hne hws hlow]
  simp only [hemp, Bool.false_eq_true, if_false]
  apply List.filter_congr
  intro a _
  cases ht : isExclusionTerm t <;>
    simp [specMatches, ht, List.filter_cons, List.drop_one]

/-- Witness for C6, at the claim's own edge case: the bare `-` query keeps
exactly the items containing a literal `-`. -/
theorem c6_witness :
    filter_human [['a', '-', 'b'], ['a', 'b']] ['-'] id =
      List.filter (fun item =>
        if isExclusionTerm ['-'] then !(strContains (lowerStr item) (['-'].drop 1))
        else strContains (lowerStr item) ['-']) [['a', '-', 'b'], ['a', 'b']] :=
  c6_exclusion_term_classification ['-'] [['a', '-', 'b'], ['a', 'b']]
    (by decide) (by decide) (by decide)

/-- Wrapping `u64` subtraction agrees with truncated subtraction when the
subtrahend is no larger and the minuend is in range. -/
theorem u64Sub_eq (a b : Nat) (hb : b ≤ a) (ha : a < U64_MOD) :
    u64Sub a b = a - b := by
  have hM : U64_MOD = 18446744073709551616 := by norm_num [U64_MOD]
  unfold u64Sub
  rw [hM] at ha ⊢
  omega

/-- A source snapshot of timestamp `ts` queried at time `ts + age` is
expired exactly when the age strictly exceeds the 30-minute window. -/
theorem sourceCache_isExpired_at_age (ts age : Nat) (u : String)
    (h : ts + age < U64_MOD) :
    (SourceCache.mk ts u).isExpired (ts + age) = decide (CACHE_EXPIRY < age) := by
  unfold SourceCache.isExpired
  rw [u64Sub_eq (ts + age) ts (Nat.le_add_right ts age) h]
  simp

/-- Counterexample to C3 as stated: at an age of exactly 1800 seconds the
snapshot is NOT expired (`1800 > 1800` is false), where the claim says the
boundary is inclusive-expired. -/
theorem c3_counterexample : (SourceCache.mk 0 "").isExpired 1800 = false := by
  decide

/-- Claim C3 (amended): a snapshot is expired at age 1801 seconds, not
expired at age 1799 seconds, and not expired at exactly 1800 seconds — the
boundary is exclusive (expired iff age > 1800), not inclusive-expired. -/
theorem c3_expiry_boundary (ts : Nat) (u : String) (h : ts + 1801 < U64_MOD) :
    (SourceCache.mk ts u).isExpired (ts + 1801) = true ∧
      (SourceCache.mk ts u).isExpired (ts + 1799) = false ∧
      (SourceCache.mk ts u).isExpired (ts + 1800) = false := by
  refine ⟨?_, ?_, ?_⟩
  · rw [sourceCache_isExpired_at_age ts 1801 u h]
    decide
  · rw [sourceCache_isExpired_at_age ts 1799 u (by omega)]
    decide
  · rw [sourceCache_isExpired_at_age ts 1800 u (by omega)]
    decide

/-- Witness for the amended C3 at a concrete timestamp. -/
theorem c3_witness :
    (SourceCache.mk 5 "u").isExpired (5 + 1801) = true ∧
      (SourceCache.mk 5 "u").isExpired (5 + 1799) = false ∧
      (SourceCache.mk 5 "u").isExpired (5 + 1800) = false :=
  c3_expiry_boundary 5 "u" (by decide)

/-- The combined cache is expired iff some present source snapshot is
expired or no source snapshot is present at all. -/
theorem cacheData_isExpired_iff (c : CacheData) (now : Nat) :
    c.isExpired now = true ↔
      (∃ g, c.github = some g ∧ g.cache_info.isExpired now = true) ∨
        (∃ l, c.gitlab = some l ∧ l.cache_info.isExpired now = true) ∨
        (c.github = none ∧ c.gitlab = none) := by
  obtain ⟨gh, gl⟩ := c
  cases gh with
  | none =>
    cases gl with
    | none => simp [CacheData.isExpired]
    | some l =>
      cases hl : l.cache_info.isExpired now <;> simp [CacheData.isExpired, hl]
  | some g =>
    cases gl with
    | none =>
      cases hg : g.cache_info.isExpired now <;> simp [CacheData.isExpired, hg]
    | some l =>
      cases hg : g.cache_info.isExpired now <;>
        cases hl : l.cache_info.isExpired now <;>
          simp [CacheData.isExpired, hg, hl]

/-- Claim C4: `CacheData::is_expired` returns true iff at least one present
per-source snapshot is expired, or no per-source snapshot is present at
all; in particular with both snapshots present and exactly one expired, the
combined cache is reported expired even though the other is fresh. -/
theorem c4_combined_expired_iff (c : CacheData) (now : Nat) :
    c.isExpired now = true ↔
      (∃ g, c.github = some g ∧ g.cache_info.isExpired now = true) ∨
        (∃ l, c.gitlab = some l ∧ l.cache_info.isExpired now = true) ∨
        (c.github = none ∧ c.gitlab = none) :=
  cacheData_isExpired_iff c now

/-- Counterexample to C5 as stated: with both tokens configured but the
loaded cache holding only a fresh GitHub snapshot (no GitLab snapshot), the
cache IS served as a synchronous hit — the hit decision never consults the
configured source set. -/
theorem c5_counterexample :
    cacheServedAsHit (some "github-token") (some "gitlab-token") false
        (some { github := some { cache_info := { timestamp := 1000, username := "gh" },
                                 repositories := [] },
                gitlab := none }) 1000 = true ∧
      ({ github := some { cache_info := { timestamp := 1000, username := "gh" },
                          repositories := [] },
         gitlab := none } : CacheData).gitlab = none := by
  decide

/-- Claim C5 (amended): without force-download, the cache is served as a
synchronous hit iff a combined cache loaded, at least one source snapshot is
present, and every present snapshot is fresh; the configured tokens play no
role, so a cache missing a configured source's snapshot is still served (a
background refresh of all configured sources is spawned regardless of the
hit). -/
theorem c5_cache_hit_iff (github_token gitlab_token : Option String)
    (loaded : Option CacheData) (now : Nat) :
    cacheServedAsHit github_token gitlab_token false loaded now = true ↔
      ∃ cd, loaded = some cd ∧
        (cd.github.isSome ∨ cd.gitlab.isSome) ∧
        (∀ g, cd.github = some g → g.cache_info.isExpired now = false) ∧
        (∀ l, cd.gitlab = some l → l.cache_info.isExpired now = false) := by
  cases loaded with
  | none => simp [cacheServedAsHit]
  | some cd =>
    obtain ⟨gh, gl⟩ := cd
    cases gh with
    | none =>
      cases gl with
      | none => simp [cacheServedAsHit, CacheData.isExpired]
      | some l =>
        cases hl : l.cache_info.isExpired now <;>
          simp [cacheServedAsHit, CacheData.isExpired, hl]
    | some g =>
      cases gl with
      | none =>
        cases hg : g.cache_info.isExpired now <;>
          simp [cacheServedAsHit, CacheData.isExpired, hg]
      | some l =>
        cases hg : g.cache_info.isExpired now <;>
          cases hl : l.cache_info.isExpired now <;>
            simp [cacheServedAsHit, CacheData.isExpired, hg, hl]

/-- Claim C10: `SourceCache::is_expired` computes `now - timestamp` with
unsigned 64-bit subtraction, which does not underflow under the
precondition `timestamp ≤ now`; under that precondition the wrapping
subtraction equals the mathematical age and `is_expired` is the strict
age comparison; and a snapshot made by `SourceCache::new` at creation time
`t_create ≤ now` satisfies the precondition because its timestamp is the
creation time. -/
theorem c10_u64_subtraction_safety (now ts : Nat) (hle : ts ≤ now)
    (hlt : now < U64_MOD) :
    u64SubUnderflows now ts = false ∧
      u64Sub now ts = now - ts ∧
      (∀ u, (SourceCache.mk ts u).isExpired now = decide (CACHE_EXPIRY < now - ts)) ∧
      (∀ (u : String) (t_create : Nat), t_create ≤ now →
        (SourceCache.new u t_create).timestamp ≤ now) := by
  have hts : ts < U64_MOD := lt_of_le_of_lt hle hlt
  refine ⟨?_, u64Sub_eq now ts hle hlt, ?_, ?_⟩
  · unfold u64SubUnderflows
    rw [Nat.mod_eq_of_lt hlt, Nat.mod_eq_of_lt hts]
    simp [Nat.not_lt.mpr hle]
  · intro u
    unfold SourceCache.isExpired
    rw [u64Sub_eq now ts hle hlt]
  · intro u t_create hc
    exact hc

/-- Witness for C10 at concrete times. -/
theorem c10_witness :
    u64SubUnderflows 100 40 = false ∧
      u64Sub 100 40 = 100 - 40 ∧
      (SourceCache.mk 40 "u").isExpired 100 = decide (CACHE_EXPIRY < 100 - 40) ∧
      (SourceCache.new "u" 70).timestamp ≤ 100 := by
  have h := c10_u64_subtraction_safety 100 40 (by decide) (by decide)
  exact ⟨h.1, h.2.1, h.2.2.1 "u", h.2.2.2 "u" 70 (by decide)⟩

/-- Claim C7: after every recomputation of the filtered list,
`update_filter` clamps the selection without panicking — when the old
selection is out of bounds it becomes `len - 1` for a non-empty filtered
list and `0` for an empty one — and the scroll offset is adjusted so that
`scroll_offset ≤ selected_index < scroll_offset + max_display` (the
viewport is positive: `max_display` is 10 from `FuzzyFinder::new`). -/
theorem c7_selection_clamped (f : FuzzyFinder) (hmd : 1 ≤ f.max_display) :
    f.update_filter.filtered_items = filter_human f.items f.query id ∧
      ((filter_human f.items f.query id).length ≤ f.selected_index →
        f.update_filter.selected_index =
          if (filter_human f.items f.query id).isEmpty then 0
          else (filter_human f.items f.query id).length - 1) ∧
      f.update_filter.scroll_offset ≤ f.update_filter.selected_index ∧
      f.update_filter.selected_index <
        f.update_filter.scroll_offset + f.update_filter.max_display := by
  obtain ⟨items, filtered, query, cur, sel, md, off⟩ := f
  simp only [FuzzyFinder.max_display] at hmd
  dsimp only [FuzzyFinder.update_filter]
  set F := filter_human items query id with hF
  have main : ∀ s : Nat,
      (if decide (s < off) then s
        else if decide (off + md ≤ s) then s - md + 1 else off) ≤ s ∧
      s < (if decide (s < off) then s
        else if decide (off + md ≤ s) then s - md + 1 else off) + md := by
    intro s
    by_cases h1 : s < off
    · simp [h1]
      omega
    · by_cases h2 : off + md ≤ s
      · simp [h1, h2]
        omega
      · simp [h1, h2]
        omega
  refine ⟨rfl, ?_, ?_, ?_⟩
  · intro h
    simp [h]
  · exact (main _).1
  · exact (main _).2

/-- Witness for C7: a state whose selection (2) is beyond the filtered list
(empty, query matches nothing) is clamped to 0 and the scroll offset
follows. -/
theorem c7_witness :
    (FuzzyFinder.mk [['a'], ['b'], ['c']] [['a'], ['b'], ['c']] ['z'] 1 2 10 1).update_filter.filtered_items =
        filter_human [['a'], ['b'], ['c']] ['z'] id ∧
      (FuzzyFinder.mk [['a'], ['b'], ['c']] [['a'], ['b'], ['c']] ['z'] 1 2 10 1).update_filter.selected_index =
        (if (filter_human [['a'], ['b'], ['c']] ['z'] id).isEmpty then 0
          else (filter_human [['a'], ['b'], ['c']] ['z'] id).length - 1) ∧
      (FuzzyFinder.mk [['a'], ['b'], ['c']] [['a'], ['b'], ['c']] ['z'] 1 2 10 1).update_filter.scroll_offset ≤
        (FuzzyFinder.mk [['a'], ['b'], ['c']] [['a'], ['b'], ['c']] ['z'] 1 2 10 1).update_filter.selected_index ∧
      (FuzzyFinder.mk [['a'], ['b'], ['c']] [['a'], ['b'], ['c']] ['z'] 1 2 10 1).update_filter.selected_index <
        (FuzzyFinder.mk [['a'], ['b'], ['c']] [['a'], ['b'], ['c']] ['z'] 1 2 10 1).update_filter.scroll_offset +
          (FuzzyFinder.mk [['a'], ['b'], ['c']] [['a'], ['b'], ['c']] ['z'] 1 2 10 1).update_filter.max_display := by
  have h := c7_selection_clamped
    (FuzzyFinder.mk [['a'], ['b'], ['c']] [['a'], ['b'], ['c']] ['z'] 1 2 10 1)
    (by decide)
  exact ⟨h.1, h.2.1 (by decide), h.2.2.1, h.2.2.2⟩

/-- Claim C8: `load_cache` returns `None` for an absent file; `None` plus a
logged warning (never a fatal error — the model is a total function) for an
unreadable or malformed file; and `Some snapshot` for a well-formed file. -/
theorem c8_load_cache_behaviour (parse : String → Except String CacheData)
    (file : FileState) :
    ((loadCache file parse).1.isSome = true ↔
        ∃ text cache_data, file = FileState.content text ∧
          parse text = Except.ok cache_data) ∧
      loadCache FileState.absent parse = (none, none) ∧
      (∀ e, loadCache (FileState.unreadable e) parse =
        (none, some ("Error reading cache file: " ++ e))) ∧
      (∀ text e, parse text = Except.error e →
        loadCache (FileState.content text) parse =
          (none, some ("Error parsing cache file: " ++ e))) ∧
      (∀ text cache_data, parse text = Except.ok cache_data →
        loadCache (FileState.content text) parse = (some cache_data, none)) := by
  refine ⟨?_, rfl, fun e => rfl, ?_, ?_⟩
  · cases file with
    | absent => simp [loadCache]
    | unreadable e => simp [loadCache]
    | content text =>
      cases hp : parse text with
      | ok cache_data => simp [loadCache, hp]
      | error e => simp [loadCache, hp]
  · intro text e hp
    simp [loadCache, hp]
  · intro text cache_data hp
    simp [loadCache, hp]

/-- Witness for C8: a malformed file yields `None` plus the parse warning,
an absent file yields a silent `None`. -/
theorem c8_witness :
    loadCache (FileState.content "x") (fun _ => Except.error "bad") =
        (none, some ("Error parsing cache file: " ++ "bad")) ∧
      loadCache FileState.absent (fun _ => Except.error "bad") = (none, none) := by
  have h := c8_load_cache_behaviour (fun _ => Except.error "bad")
    (FileState.content "x")
  exact ⟨h.2.2.2.1 "x" "bad" rfl, h.2.1⟩

/-- Claim C2: in every background refresh cycle, each successful source
yields a `NewRepos` message carrying the merged-so-far corpus (accumulated,
not replaced) plus the latest known usernames; each failed source yields an
`Error` message with a human-readable cause and the cycle continues; the
cache snapshot handed to the cache write contains exactly the sources that
succeeded; a cache-write failure yields an `Error` message but is non-fatal;
and the completion message is emitted last, with no message — in particular
no `NewRepos` — after it. -/
theorem c2_refresh_cycle (github_token gitlab_token : Option String)
    (github_fetch gitlab_fetch : String → Except String (String × List Repository))
    (save_cache : CacheData → Except String Unit) (gh_now gl_now : Nat) :
    (spawn_background_task github_token gitlab_token github_fetch gitlab_fetch
        save_cache gh_now gl_now).1.getLast? =
      some RepoUpdateMessage.LoadingComplete ∧
    ((spawn_background_task github_token gitlab_token github_fetch gitlab_fetch
        save_cache gh_now gl_now).1.dropLast).all
        (fun m => decide (m ≠ RepoUpdateMessage.LoadingComplete)) = true ∧
    (spawn_background_task github_token gitlab_token github_fetch gitlab_fetch
        save_cache gh_now gl_now).1.filter isNewReposMsg =
      c2ExpectedNewRepos (fetchOutcome github_token github_fetch)
        (fetchOutcome gitlab_token gitlab_fetch) ∧
    (spawn_background_task github_token gitlab_token github_fetch gitlab_fetch
        save_cache gh_now gl_now).1.filter isErrorMsg =
      c2ExpectedErrors (fetchFailure github_token github_fetch)
        (fetchFailure gitlab_token gitlab_fetch)
        (match save_cache (c2ExpectedCache (fetchOutcome github_token github_fetch)
            (fetchOutcome gitlab_token gitlab_fetch) gh_now gl_now) with
          | .ok _ => none
          | .error e => some e) ∧
    (spawn_background_task github_token gitlab_token github_fetch gitlab_fetch
        save_cache gh_now gl_now).2 =
      c2ExpectedCache (fetchOutcome github_token github_fetch)
        (fetchOutcome gitlab_token gitlab_fetch) gh_now gl_now := by
  cases github_token with
  | none =>
    cases gitlab_token with
    | none =>
      cases hs : save_cache (c2ExpectedCache none none gh_now gl_now) <;>
        simp_all [spawn_background_task, fetchOutcome, fetchFailure,
          c2ExpectedNewRepos, c2ExpectedErrors, c2ExpectedCache,
          CacheData.new, isNewReposMsg, isErrorMsg]
    | some glt =>
      cases hgl : gitlab_fetch glt with
      | ok p =>
        obtain ⟨gl_username, gl_repos⟩ := p
        cases hs : save_cache (c2ExpectedCache none (some (gl_username, gl_repos))
            gh_now gl_now) <;>
          simp_all [spawn_background_task, fetchOutcome, fetchFailure,
            c2ExpectedNewRepos, c2ExpectedErrors, c2ExpectedCache,
            CacheData.new, CacheData.update_gitlab, SourceCache.new,
            isNewReposMsg, isErrorMsg]
      | error e =>
        cases hs : save_cache (c2ExpectedCache none none gh_now gl_now) <;>
          simp_all [spawn_background_task, fetchOutcome, fetchFailure,
            c2ExpectedNewRepos, c2ExpectedErrors, c2ExpectedCache,
            CacheData.new, isNewReposMsg, isErrorMsg]
  | some ght =>
    cases hgh : github_fetch ght with
    | ok p =>
      obtain ⟨gh_username, gh_repos⟩ := p
      cases gitlab_token with
      | none =>
        cases hs : save_cache (c2ExpectedCache (some (gh_username, gh_repos)) none
            gh_now gl_now) <;>
          simp_all [spawn_background_task, fetchOutcome, fetchFailure,
            c2ExpectedNewRepos, c2ExpectedErrors, c2ExpectedCache,
            CacheData.new, CacheData.update_github, SourceCache.new,
            isNewReposMsg, isErrorMsg]
      | some glt =>
        cases hgl : gitlab_fetch glt with
        | ok q =>
          obtain ⟨gl_username, gl_repos⟩ := q
          cases hs : save_cache (c2ExpectedCache (some (gh_username, gh_repos))
              (some (gl_username, gl_repos)) gh_now gl_now) <;>
            simp_all [spawn_background_task, fetchOutcome, fetchFailure,
              c2ExpectedNewRepos, c2ExpectedErrors, c2ExpectedCache,
              CacheData.new, CacheData.update_github, CacheData.update_gitlab,
              SourceCache.new, isNewReposMsg, isErrorMsg]
        | error e =>
          cases hs : save_cache (c2ExpectedCache (some (gh_username, gh_repos)) none
              gh_now gl_now) <;>
            simp_all [spawn_background_task, fetchOutcome, fetchFailure,
              c2ExpectedNewRepos, c2ExpectedErrors, c2ExpectedCache,
              CacheData.new, CacheData.update_github, SourceCache.new,
              isNewReposMsg, isErrorMsg]
    | error e =>
      cases gitlab_token with
      | none =>
        cases hs : save_cache (c2ExpectedCache none none gh_now gl_now) <;>
          simp_all [spawn_background_task, fetchOutcome, fetchFailure,
            c2ExpectedNewRepos, c2ExpectedErrors, c2ExpectedCache,
            CacheData.new, isNewReposMsg, isErrorMsg]
      | some glt =>
        cases hgl : gitlab_fetch glt with
        | ok q =>
          obtain ⟨gl_username, gl_repos⟩ := q
          cases hs : save_cache (c2ExpectedCache none (some (gl_username, gl_repos))
              gh_now gl_now) <;>
            simp_all [spawn_background_task, fetchOutcome, fetchFailure,
              c2ExpectedNewRepos, c2ExpectedErrors, c2ExpectedCache,
              CacheData.new, CacheData.update_gitlab, SourceCache.new,
              isNewReposMsg, isErrorMsg]
        | error e2 =>
          cases hs : save_cache (c2ExpectedCache none none gh_now gl_now) <;>
            simp_all [spawn_background_task, fetchOutcome, fetchFailure,
              c2ExpectedNewRepos, c2ExpectedErrors, c2ExpectedCache,
              CacheData.new, isNewReposMsg, isErrorMsg]
